import Mathlib

/-!
Shallow embedding of `crates/neon-runtime/src/napi/no_panic.rs`.

The module is a failure boundary between Rust and the Node-API runtime.
Every Node-API call returns a status; the code compares it against `Ok`
and calls `fatal_error` (process abort, never returns) on anything else.
We model a runtime-thread computation as `Except String α`, where
`Except.error msg` is a process abort carrying the diagnostic `msg`.

The behaviour of the external Node-API runtime (which status each call
returns, and whether an exception is pending after the user callback ran)
is an oracle record `Napi`.  JavaScript values (`Local` handles) are a
symbolic inductive `Value` that records exactly the structure the code
builds: strings, error objects with their properties in assignment order,
and externals wrapping a boxed panic payload.
-/

namespace NoPanic

/-- Node-API call status: the source only ever distinguishes `napi::Status::Ok`
from every other status, so two constructors suffice. -/
inductive Status where
  | Ok
  | Failed
deriving DecidableEq, Repr

/-- Type-erased panic payload (`type Panic = Box<dyn Any + Send + 'static>`).
The code downcasts to `&str` and to `String`; any other concrete type is
an opaque payload, represented by a tag. -/
inductive Panic where
  | strRef (s : String)
  | stringOwned (s : String)
  | other (tag : Nat)
deriving DecidableEq, Repr

def UNKNOWN_PANIC_MESSAGE : String := "Unknown panic"

/-- `panic_msg` (source lines 224-233): downcast to `&str`, else to `String`,
else no message. -/
def panic_msg : Panic → Option String
  | .strRef s => some s
  | .stringOwned s => some s
  | .other _ => none

/-- Symbolic model of a `Local` (a handle to a JavaScript value).
`js id` is an arbitrary pre-existing value (a callback result or a thrown
exception); `error msg props` is an error object created from `msg` whose
properties were assigned in list order; `external p fin` is an external
created from the boxed payload `p`, with `fin = true` recording that
`finalize_panic` was registered as its finalize callback. -/
inductive Value where
  | js (id : Nat)
  | str (s : String)
  | error (msg : String) (props : List (String × Value))
  | external (payload : Panic) (finalizerRegistered : Bool)

/-- Property assignment on a value: error objects accumulate properties;
the code never assigns properties on any other kind of value it creates. -/
def Value.setProp : Value → String → Value → Value
  | .error m props, key, v => .error m (props ++ [(key, v)])
  | o, _, _ => o

/-- Oracle for the external Node-API runtime: the status every binding
returns when called, and the pending-exception state the user callback
left behind. -/
structure Napi where
  pending_exception : Option Value
  is_exception_pending_status : Status
  get_and_clear_last_exception_status : Status
  create_string_utf8_status : Status
  create_error_status : Status
  set_property_status : Status
  resolve_deferred_status : Status
  reject_deferred_status : Status
  create_external_status : Status
  fatal_exception_status : Status

/-- A runtime-thread computation: `Except.error msg` models `fatal_error(msg)`,
which aborts the process and never returns. -/
abbrev M := Except String

/-- `create_string` (lines 258-268): abort with a fixed diagnostic unless the
runtime reports `Ok`. -/
def create_string (n : Napi) (msg : String) : M Value :=
  if n.create_string_utf8_status = Status.Ok then Except.ok (Value.str msg)
  else Except.error "Failed to create a String"

/-- `is_exception_pending` (lines 270-278). -/
def is_exception_pending (n : Napi) : M Bool :=
  if n.is_exception_pending_status = Status.Ok then
    Except.ok n.pending_exception.isSome
  else Except.error "Failed to check if an exception is pending"

/-- `catch_exception` (lines 171-184): probe for a pending exception and
atomically clear it, returning it if present. -/
def catch_exception (n : Napi) : M (Option Value) := do
  if !(← is_exception_pending n) then
    return none
  if n.get_and_clear_last_exception_status = Status.Ok then
    return n.pending_exception
  else
    Except.error "Failed to get and clear the last exception"

/-- `error_from_message` (lines 186-200): create a string then an error. -/
def error_from_message (n : Napi) (msg : String) : M Value := do
  let _ ← create_string n msg
  if n.create_error_status = Status.Ok then
    return Value.error msg []
  else
    Except.error "Failed to create an Error"

/-- `set_property` (lines 215-222): create the key string, then assign. -/
def set_property (n : Napi) (object : Value) (key : String) (value : Value) :
    M Value := do
  let _ ← create_string n key
  if n.set_property_status = Status.Ok then
    return object.setProp key value
  else
    Except.error "Failed to set an object property"

/-- `external_from_panic` (lines 235-250): wrap the boxed payload in an
external, registering `finalize_panic` as its finalize callback. -/
def external_from_panic (n : Napi) (p : Panic) : M Value :=
  if n.create_external_status = Status.Ok then
    Except.ok (Value.external p true)
  else
    Except.error "Failed to create a neon::types::JsBox from a panic"

/-- `error_from_panic` (lines 202-213): an error carrying the extracted
message, or an "Unknown panic" error whose `cause` is the boxed payload. -/
def error_from_panic (n : Napi) (p : Panic) : M Value := do
  match panic_msg p with
  | some msg => error_from_message n msg
  | none =>
    let error ← error_from_message n UNKNOWN_PANIC_MESSAGE
    let ext ← external_from_panic n p
    set_property n error "cause" ext

/-- `create_error` (lines 134-155): build the error from the chosen message,
attach the exception as `cause` and the panic as `panic` when present. -/
def create_error (n : Napi) (msg : String) (exception : Option Value)
    (panic : Option Panic) : M Value := do
  let error ← error_from_message n msg
  let error ← match exception with
    | some exc => set_property n error "cause" exc
    | none => pure error
  match panic with
  | some p => do
    let pv ← error_from_panic n p
    set_property n error "panic" pv
  | none => pure error

/-- `resolve_deferred` (lines 157-162). -/
def resolve_deferred (n : Napi) (value : Value) : M Unit :=
  if n.resolve_deferred_status = Status.Ok then Except.ok ()
  else Except.error "Failed to resolve promise"

/-- `reject_deferred` (lines 164-169). -/
def reject_deferred (n : Napi) (value : Value) : M Unit :=
  if n.reject_deferred_status = Status.Ok then Except.ok ()
  else Except.error "Failed to reject promise"

/-- State of the boxed panic payload handed to `create_external`. -/
inductive BoxState where
  | live (payload : Panic)
  | dropped
deriving DecidableEq, Repr

/-- `finalize_panic` (lines 252-256): reconstitute the box from the raw
pointer and drop it, dropping the payload. -/
def finalize_panic : BoxState → BoxState
  | .live _ => .dropped
  | .dropped => .dropped

/-- `FailureBoundary` (lines 33-37): three fixed template messages. -/
structure FailureBoundary where
  both : String
  exception : String
  panic : String

/-- The terminal action `catch_failure` performs: settle the deferred,
emit an uncaught exception, abort the process, or plainly return having
done none of those. -/
inductive Outcome where
  | resolved (value : Value)
  | rejected (value : Value)
  | emitted (error : Value)
  | aborted (msg : String)
  | returned

/-- Whether the outcome is one of the four actions (resolve, reject,
emit-uncaught, abort) as opposed to a plain return. -/
def Outcome.isAction : Outcome → Bool
  | .returned => false
  | _ => true

/-- Collapse a runtime-thread computation to its outcome: a `fatal_error`
is a process abort. -/
def runBoundary : M Outcome → Outcome
  | .ok o => o
  | .error msg => .aborted msg

/-- `Env` is a raw pointer to the runtime context; `0` models null
("event loop has terminated"). -/
abbrev Env := Nat

/-- A `napi::Deferred` is a one-shot settlement capability; the boundary
only checks presence and hands it to resolve/reject. -/
abbrev Deferred := Unit

/-- Lines 100-130 of `catch_failure`: the shared failure path once a severity
message has been chosen.  `napi3` is the `feature = "napi-3"` compile flag. -/
def FailureBoundary.handle_failure (b : FailureBoundary) (napi3 : Bool)
    (n : Napi) (deferred : Option Deferred) (msg : String)
    (exception : Option Value) (panic : Option Panic) : M Outcome := do
  if deferred.isSome then
    let error ← create_error n msg exception panic
    reject_deferred n error
    return Outcome.rejected error
  else if napi3 then
    let error ← create_error n msg exception panic
    if n.fatal_exception_status = Status.Ok then
      return Outcome.emitted error
    else
      Except.error "Failed to throw an uncaughtException"
  else
    Except.error ((Option.bind panic panic_msg).getD msg)

/-- Lines 67-130 of `catch_failure`: with a live env, probe the exception,
classify the (exception, panic) pair, and act. -/
def FailureBoundary.classify (b : FailureBoundary) (napi3 : Bool) (n : Napi)
    (deferred : Option Deferred) (panic : Except Panic Value) : M Outcome := do
  let exception ← catch_exception n
  match exception, panic with
  | some err, .error p =>
    b.handle_failure napi3 n deferred b.both (some err) (some p)
  | some err, .ok _ =>
    if deferred.isSome then do
      reject_deferred n err
      return Outcome.rejected err
    else
      b.handle_failure napi3 n deferred b.exception (some err) none
  | none, .error p =>
    b.handle_failure napi3 n deferred b.panic none (some p)
  | none, .ok value =>
    if deferred.isSome then do
      resolve_deferred n value
      return Outcome.resolved value
    else
      return Outcome.returned

/-- `FailureBoundary::catch_failure` (lines 40-131).  The user callback `f`
receives `none` when the env is null; its result is either the produced
`Local` or the captured panic payload.  Whether it left a pending exception
is part of the `Napi` oracle. -/
def FailureBoundary.catch_failure (b : FailureBoundary) (napi3 : Bool)
    (n : Napi) (env : Env) (deferred : Option Deferred)
    (f : Option Env → Except Panic Value) : Outcome :=
  let envOpt : Option Env := if env = 0 then none else some env
  let panic := f envOpt
  match envOpt with
  | none =>
    match panic with
    | .error p => .aborted ((panic_msg p).getD UNKNOWN_PANIC_MESSAGE)
    | .ok _ => .returned
  | some _ => runBoundary (b.classify napi3 n deferred panic)

/-- An oracle on which every runtime call succeeds and no exception is
pending. -/
def goodNapi : Napi where
  pending_exception := none
  is_exception_pending_status := .Ok
  get_and_clear_last_exception_status := .Ok
  create_string_utf8_status := .Ok
  create_error_status := .Ok
  set_property_status := .Ok
  resolve_deferred_status := .Ok
  reject_deferred_status := .Ok
  create_external_status := .Ok
  fatal_exception_status := .Ok

/-- A concrete boundary configuration for witnesses. -/
def bTest : FailureBoundary where
  both := "both threw and panicked"
  exception := "threw an exception"
  panic := "panicked"

/-- An oracle on which every runtime call fails. -/
def badNapi : Napi where
  pending_exception := some (Value.js 0)
  is_exception_pending_status := .Failed
  get_and_clear_last_exception_status := .Failed
  create_string_utf8_status := .Failed
  create_error_status := .Failed
  set_property_status := .Failed
  resolve_deferred_status := .Failed
  reject_deferred_status := .Failed
  create_external_status := .Failed
  fatal_exception_status := .Failed

/-- A fully-working oracle on which an exception is pending. -/
def goodNapiExc : Napi :=
  { goodNapi with pending_exception := some (Value.js 7) }

/-- An oracle on which string creation and the pending-exception check work
but everything else fails. -/
def mixedNapi : Napi :=
  { badNapi with
      create_string_utf8_status := .Ok
      is_exception_pending_status := .Ok }

/-- `Result::err()` on the captured callback result: the panic payload, if
the callback unwound. -/
def caughtPanic : Except Panic Value → Option Panic
  | .error p => some p
  | .ok _ => none

/-- Whether the captured callback result is an unwinding failure. -/
def didPanic (r : Except Panic Value) : Bool :=
  (caughtPanic r).isSome

/-- The exception probe succeeds. -/
def Napi.probeOk (n : Napi) : Prop :=
  n.is_exception_pending_status = Status.Ok ∧
  n.get_and_clear_last_exception_status = Status.Ok

/-- Every value-building call (string, error, property, external) succeeds. -/
def Napi.buildersOk (n : Napi) : Prop :=
  n.create_string_utf8_status = Status.Ok ∧
  n.create_error_status = Status.Ok ∧
  n.set_property_status = Status.Ok ∧
  n.create_external_status = Status.Ok

instance (n : Napi) : Decidable n.probeOk := by
  unfold Napi.probeOk; infer_instance

instance (n : Napi) : Decidable n.buildersOk := by
  unfold Napi.buildersOk; infer_instance

/-- The value `error_from_panic` produces when every builder call succeeds:
an error named by the extracted message, or an "Unknown panic" error whose
`cause` is the external wrapping the boxed payload. -/
def panic_error_value (p : Panic) : Value :=
  match panic_msg p with
  | some m => Value.error m []
  | none => Value.error UNKNOWN_PANIC_MESSAGE [("cause", Value.external p true)]

/-- The property list `create_error` leaves on the error it builds when every
builder call succeeds. -/
def error_props (exception : Option Value) (panic : Option Panic) :
    List (String × Value) :=
  (match exception with | some e => [("cause", e)] | none => []) ++
  (match panic with | some p => [("panic", panic_error_value p)] | none => [])

/-- The severity template `catch_failure` chooses for a failing
(exception?, panic?) combination (lines 71-98). -/
def FailureBoundary.severity_msg (b : FailureBoundary)
    (exception : Option Value) (panic : Except Panic Value) : String :=
  match exception, panic with
  | some _, .error _ => b.both
  | some _, .ok _ => b.exception
  | none, _ => b.panic

theorem catch_exception_ok (n : Napi) (h : n.probeOk) :
    catch_exception n = Except.ok n.pending_exception := by
  obtain ⟨h1, h2⟩ := h
  cases hpe : n.pending_exception <;>
    simp [catch_exception, is_exception_pending, h1, h2, hpe, Bind.bind,
      Except.bind, pure, Except.pure]

theorem error_from_message_ok (n : Napi) (msg : String)
    (h1 : n.create_string_utf8_status = Status.Ok)
    (h2 : n.create_error_status = Status.Ok) :
    error_from_message n msg = Except.ok (Value.error msg []) := by
  simp [error_from_message, create_string, h1, h2, Bind.bind, Except.bind, pure, Except.pure]

theorem set_property_ok (n : Napi) (o : Value) (k : String) (v : Value)
    (h1 : n.create_string_utf8_status = Status.Ok)
    (h2 : n.set_property_status = Status.Ok) :
    set_property n o k v = Except.ok (o.setProp k v) := by
  simp [set_property, create_string, h1, h2, Bind.bind, Except.bind, pure, Except.pure]

theorem error_from_panic_ok (n : Napi) (p : Panic) (h : n.buildersOk) :
    error_from_panic n p = Except.ok (panic_error_value p) := by
  obtain ⟨h1, h2, h3, h4⟩ := h
  cases p <;>
    simp [error_from_panic, panic_error_value, panic_msg,
      error_from_message_ok n _ h1 h2, external_from_panic, h4,
      set_property_ok n _ _ _ h1 h3, Value.setProp, Bind.bind, Except.bind, pure, Except.pure]

theorem create_error_ok (n : Napi) (msg : String) (exception : Option Value)
    (panic : Option Panic) (h : n.buildersOk) :
    create_error n msg exception panic =
      Except.ok (Value.error msg (error_props exception panic)) := by
  obtain ⟨h1, h2, h3, h4⟩ := h
  cases exception <;> cases panic <;>
    simp [create_error, error_props, error_from_message_ok n _ h1 h2,
      set_property_ok n _ _ _ h1 h3, error_from_panic_ok n _ ⟨h1, h2, h3, h4⟩,
      Value.setProp, Bind.bind, Except.bind, pure, Except.pure]

theorem handle_failure_deferred (b : FailureBoundary) (napi3 : Bool)
    (n : Napi) (msg : String) (exception : Option Value) (panic : Option Panic)
    (hb : n.buildersOk) (hrej : n.reject_deferred_status = Status.Ok) :
    b.handle_failure napi3 n (some ()) msg exception panic =
      Except.ok (Outcome.rejected (Value.error msg
        (error_props exception panic))) := by
  simp [FailureBoundary.handle_failure, create_error_ok n msg _ _ hb,
    reject_deferred, hrej, Bind.bind, Except.bind, pure, Except.pure]

theorem handle_failure_no_napi3 (b : FailureBoundary) (n : Napi)
    (msg : String) (exception : Option Value) (panic : Option Panic) :
    b.handle_failure false n none msg exception panic =
      Except.error ((Option.bind panic panic_msg).getD msg) := by
  simp [FailureBoundary.handle_failure]

theorem handle_failure_napi3 (b : FailureBoundary) (n : Napi)
    (msg : String) (exception : Option Value) (panic : Option Panic)
    (hb : n.buildersOk) :
    b.handle_failure true n none msg exception panic =
      (if n.fatal_exception_status = Status.Ok then
        Except.ok (Outcome.emitted (Value.error msg
          (error_props exception panic)))
      else
        Except.error "Failed to throw an uncaughtException") := by
  simp [FailureBoundary.handle_failure, create_error_ok n msg _ _ hb,
    Bind.bind, Except.bind, pure, Except.pure]

theorem handle_failure_isAction (b : FailureBoundary) (napi3 : Bool)
    (n : Napi) (d : Option Deferred) (msg : String) (exception : Option Value)
    (panic : Option Panic) :
    (runBoundary (b.handle_failure napi3 n d msg exception panic)).isAction
      = true := by
  unfold FailureBoundary.handle_failure
  split
  · cases hc : create_error n msg exception panic <;>
      cases hr : n.reject_deferred_status <;>
        simp [runBoundary, Outcome.isAction, hc, reject_deferred, hr,
          Bind.bind, Except.bind, pure, Except.pure]
  · split
    · cases hc : create_error n msg exception panic <;>
        cases hf : n.fatal_exception_status <;>
          simp [runBoundary, Outcome.isAction, hc, hf, Bind.bind, Except.bind,
            pure, Except.pure]
    · simp [runBoundary, Outcome.isAction]

theorem isAction_false_iff_returned (o : Outcome) :
    o.isAction = false ↔ o = Outcome.returned := by
  cases o <;> simp [Outcome.isAction]

theorem handle_failure_ne_returned (b : FailureBoundary) (napi3 : Bool)
    (n : Napi) (d : Option Deferred) (msg : String) (exception : Option Value)
    (panic : Option Panic) :
    runBoundary (b.handle_failure napi3 n d msg exception panic) ≠
      Outcome.returned := by
  have h := handle_failure_isAction b napi3 n d msg exception panic
  intro he
  rw [he] at h
  simp [Outcome.isAction] at h

theorem catch_failure_live (b : FailureBoundary) (napi3 : Bool) (n : Napi)
    (env : Env) (d : Option Deferred) (f : Option Env → Except Panic Value)
    (henv : env ≠ 0) :
    b.catch_failure napi3 n env d f =
      runBoundary (b.classify napi3 n d (f (some env))) := by
  simp [FailureBoundary.catch_failure, henv]

/-- Claim C1 (amended): with a non-null env and a succeeding exception probe,
`catch_failure` terminates in exactly one of FIVE outcomes — resolve, reject,
emit-uncaught, abort, or a plain return with no action — and the plain return
happens exactly when no exception is pending, the work did not panic, and no
`Deferred` was supplied; in every other combination exactly one of the four
actions occurs. -/
theorem catch_failure_outcome_classification
    (b : FailureBoundary) (napi3 : Bool) (n : Napi) (env : Env)
    (d : Option Deferred) (f : Option Env → Except Panic Value)
    (henv : env ≠ 0) (hp : n.probeOk) :
    (b.catch_failure napi3 n env d f).isAction = false ↔
      (n.pending_exception = none ∧ didPanic (f (some env)) = false ∧
        d = none) := by
  rw [isAction_false_iff_returned, catch_failure_live b napi3 n env d f henv]
  have hc := catch_exception_ok n hp
  cases hpe : n.pending_exception <;> cases hf : f (some env) <;> cases d <;>
    simp only [FailureBoundary.classify, hc, hpe, hf, Bind.bind, Except.bind]
  · simp [handle_failure_ne_returned, didPanic, caughtPanic]
  · simp [handle_failure_ne_returned, didPanic, caughtPanic]
  · simp [runBoundary, didPanic, caughtPanic, pure, Except.pure]
  · cases hr : n.resolve_deferred_status <;>
      simp [hr, resolve_deferred, runBoundary, didPanic, caughtPanic,
        Bind.bind, Except.bind, pure, Except.pure]
  · simp [handle_failure_ne_returned, didPanic, caughtPanic]
  · simp [handle_failure_ne_returned, didPanic, caughtPanic]
  · simp [handle_failure_ne_returned, didPanic, caughtPanic]
  · cases hj : n.reject_deferred_status <;>
      simp [hj, reject_deferred, runBoundary, didPanic, caughtPanic,
        Bind.bind, Except.bind, pure, Except.pure]

/-- Claim C1 witness: concrete instantiation of the classification. -/
theorem catch_failure_outcome_classification_witness :
    (bTest.catch_failure true goodNapi 1 (some ())
        (fun _ => Except.ok (Value.js 42))).isAction = false ↔
      (goodNapi.pending_exception = none ∧
        didPanic ((fun _ => Except.ok (Value.js 42)) (some 1)) = false ∧
        (some () : Option Deferred) = none) :=
  catch_failure_outcome_classification bTest true goodNapi 1 (some ())
    (fun _ => Except.ok (Value.js 42)) (by decide) (by decide)

/-- Claim C1 counterexample: with a live env, no pending exception, a
normally-returning callback and no `Deferred`, `catch_failure` performs none
of the four claimed outcomes — it plainly returns. -/
theorem catch_failure_zero_actions_counterexample :
    (bTest.catch_failure true goodNapi 1 none
        (fun _ => Except.ok (Value.js 42))).isAction = false ∧
      bTest.catch_failure true goodNapi 1 none
        (fun _ => Except.ok (Value.js 42)) = Outcome.returned := by
  exact ⟨rfl, rfl⟩

/-- Claim C2: non-null env, `Deferred` supplied, pending exception, no panic:
the deferred is rejected with the exception value itself, unmodified. -/
theorem exception_only_rejects_with_exception_value
    (b : FailureBoundary) (napi3 : Bool) (n : Napi) (env : Env)
    (f : Option Env → Except Panic Value) (e v : Value)
    (henv : env ≠ 0) (hp : n.probeOk)
    (hexc : n.pending_exception = some e) (hok : f (some env) = Except.ok v)
    (hrej : n.reject_deferred_status = Status.Ok) :
    b.catch_failure napi3 n env (some ()) f = Outcome.rejected e := by
  rw [catch_failure_live b napi3 n env (some ()) f henv]
  simp [FailureBoundary.classify, catch_exception_ok n hp, hexc, hok,
    reject_deferred, hrej, runBoundary, Bind.bind, Except.bind, pure,
    Except.pure]

/-- Claim C2 witness. -/
theorem exception_only_rejects_with_exception_value_witness :
    bTest.catch_failure true
        { goodNapi with pending_exception := some (Value.js 7) } 1 (some ())
        (fun _ => Except.ok (Value.js 42)) = Outcome.rejected (Value.js 7) :=
  exception_only_rejects_with_exception_value bTest true
    { goodNapi with pending_exception := some (Value.js 7) } 1
    (fun _ => Except.ok (Value.js 42)) (Value.js 7) (Value.js 42)
    (by decide) (by decide) rfl rfl rfl

/-- Claim C3: non-null env, `Deferred` supplied, and the work panicked: the
deferred is rejected with a constructed error whose message is the `both`
template when an exception was also pending, else the `panic` template, with
the exception attached as `cause` when present and the panic attached as
`panic`. -/
theorem panic_rejects_with_template_error
    (b : FailureBoundary) (napi3 : Bool) (n : Napi) (env : Env)
    (f : Option Env → Except Panic Value) (p : Panic)
    (henv : env ≠ 0) (hp : n.probeOk) (hb : n.buildersOk)
    (hrej : n.reject_deferred_status = Status.Ok)
    (hpanic : f (some env) = Except.error p) :
    b.catch_failure napi3 n env (some ()) f =
      Outcome.rejected (Value.error
        (match n.pending_exception with
          | some _ => b.both
          | none => b.panic)
        (error_props n.pending_exception (some p))) := by
  rw [catch_failure_live b napi3 n env (some ()) f henv]
  cases hpe : n.pending_exception <;>
    simp [FailureBoundary.classify, catch_exception_ok n hp, hpe, hpanic,
      handle_failure_deferred _ _ _ _ _ _ hb hrej, runBoundary,
      Bind.bind, Except.bind, pure, Except.pure]

/-- Claim C3 witness: the both-exception-and-panic case with an opaque
payload. -/
theorem panic_rejects_with_template_error_witness :
    bTest.catch_failure true
        { goodNapi with pending_exception := some (Value.js 7) } 1 (some ())
        (fun _ => Except.error (Panic.other 3)) =
      Outcome.rejected (Value.error bTest.both
        (error_props (some (Value.js 7)) (some (Panic.other 3)))) :=
  panic_rejects_with_template_error bTest true
    { goodNapi with pending_exception := some (Value.js 7) } 1
    (fun _ => Except.error (Panic.other 3)) (Panic.other 3)
    (by decide) (by decide) (by decide) rfl rfl

/-- Claim C4: non-null env, no `Deferred`, Node-API < 3 build, and a panic or
exception outcome: the process aborts, with the panic's extracted message as
the diagnostic when there is one, else the chosen template message. -/
theorem no_deferred_pre_napi3_aborts
    (b : FailureBoundary) (n : Napi) (env : Env)
    (f : Option Env → Except Panic Value)
    (henv : env ≠ 0) (hp : n.probeOk)
    (hfail : n.pending_exception.isSome = true ∨
      didPanic (f (some env)) = true) :
    b.catch_failure false n env none f =
      Outcome.aborted
        ((Option.bind (caughtPanic (f (some env))) panic_msg).getD
          (b.severity_msg n.pending_exception (f (some env)))) := by
  rw [catch_failure_live b false n env none f henv]
  cases hpe : n.pending_exception <;> cases hf : f (some env) <;>
    simp [hpe, hf, didPanic, caughtPanic] at hfail ⊢ <;>
    simp [FailureBoundary.classify, catch_exception_ok n hp, hpe, hf,
      handle_failure_no_napi3, FailureBoundary.severity_msg, caughtPanic,
      runBoundary, Bind.bind, Except.bind, pure, Except.pure]

/-- Claim C4 witness: a panic with an extractable message aborts with that
message. -/
theorem no_deferred_pre_napi3_aborts_witness :
    bTest.catch_failure false goodNapi 1 none
        (fun _ => Except.error (Panic.strRef "boom")) =
      Outcome.aborted
        ((Option.bind
            (caughtPanic ((fun (_ : Option Env) =>
              Except.error (ε := Panic) (Panic.strRef "boom")) (some 1)))
            panic_msg).getD
          (bTest.severity_msg goodNapi.pending_exception
            ((fun (_ : Option Env) =>
              Except.error (ε := Panic) (Panic.strRef "boom")) (some 1)))) :=
  no_deferred_pre_napi3_aborts bTest goodNapi 1
    (fun _ => Except.error (Panic.strRef "boom"))
    (by decide) (by decide) (Or.inr rfl)

/-- Claim C5: with a null env the work still runs (receiving no handle); a
panic aborts with the extracted message, or "Unknown panic" when none can be
extracted; otherwise `catch_failure` returns without settling any supplied
`Deferred` and without any runtime action. -/
theorem null_env_runs_work_and_aborts_on_panic
    (b : FailureBoundary) (napi3 : Bool) (n : Napi) (d : Option Deferred)
    (f : Option Env → Except Panic Value) :
    b.catch_failure napi3 n 0 d f =
      (match f none with
        | .error p =>
          Outcome.aborted ((panic_msg p).getD UNKNOWN_PANIC_MESSAGE)
        | .ok _ => Outcome.returned) := by
  cases hf : f none <;> simp [FailureBoundary.catch_failure, hf]

/-- Claim C6: non-null env, no `Deferred`, Node-API >= 3 build, and a failure
outcome: the constructed error is emitted as an uncaught exception when the
emission call succeeds, and the process aborts with the fixed diagnostic when
the emission call itself fails. -/
theorem no_deferred_napi3_emits_or_aborts
    (b : FailureBoundary) (n : Napi) (env : Env)
    (f : Option Env → Except Panic Value)
    (henv : env ≠ 0) (hp : n.probeOk) (hb : n.buildersOk)
    (hfail : n.pending_exception.isSome = true ∨
      didPanic (f (some env)) = true) :
    (n.fatal_exception_status = Status.Ok →
      b.catch_failure true n env none f =
        Outcome.emitted (Value.error
          (b.severity_msg n.pending_exception (f (some env)))
          (error_props n.pending_exception
            (caughtPanic (f (some env)))))) ∧
    (n.fatal_exception_status = Status.Failed →
      b.catch_failure true n env none f =
        Outcome.aborted "Failed to throw an uncaughtException") := by
  constructor <;> intro hfe <;>
    rw [catch_failure_live b true n env none f henv] <;>
    cases hpe : n.pending_exception <;> cases hf : f (some env) <;>
      simp [hpe, hf, didPanic, caughtPanic] at hfail ⊢ <;>
      simp [FailureBoundary.classify, catch_exception_ok n hp, hpe, hf,
        handle_failure_napi3 _ _ _ _ _ hb, FailureBoundary.severity_msg,
        caughtPanic, hfe, runBoundary, Bind.bind, Except.bind, pure,
        Except.pure]

/-- Claim C6 witness: exception-only emission on a fully-working runtime. -/
theorem no_deferred_napi3_emits_or_aborts_witness :
    ((goodNapiExc.fatal_exception_status = Status.Ok →
      bTest.catch_failure true goodNapiExc 1 none
          (fun _ => Except.ok (Value.js 1)) =
        Outcome.emitted (Value.error
          (bTest.severity_msg goodNapiExc.pending_exception
            ((fun (_ : Option Env) => Except.ok (ε := Panic) (Value.js 1))
              (some 1)))
          (error_props goodNapiExc.pending_exception
            (caughtPanic ((fun (_ : Option Env) =>
              Except.ok (ε := Panic) (Value.js 1)) (some 1)))))) ∧
    (goodNapiExc.fatal_exception_status = Status.Failed →
      bTest.catch_failure true goodNapiExc 1 none
          (fun _ => Except.ok (Value.js 1)) =
        Outcome.aborted "Failed to throw an uncaughtException")) :=
  no_deferred_napi3_emits_or_aborts bTest goodNapiExc 1
    (fun _ => Except.ok (Value.js 1)) (by decide) (by decide) (by decide)
    (Or.inl rfl)

/-- Claim C7: every fallible runtime sub-operation of the boundary aborts the
process with its fixed diagnostic when the runtime reports a non-Ok status,
and an abort is never propagated to the caller as anything but an abort. -/
theorem runtime_call_failure_aborts :
    (∀ (n : Napi) (msg : String),
      n.create_string_utf8_status = Status.Failed →
      create_string n msg = Except.error "Failed to create a String") ∧
    (∀ (n : Napi) (msg : String), n.create_string_utf8_status = Status.Ok →
      n.create_error_status = Status.Failed →
      error_from_message n msg = Except.error "Failed to create an Error") ∧
    (∀ (n : Napi) (o : Value) (k : String) (v : Value),
      n.create_string_utf8_status = Status.Ok →
      n.set_property_status = Status.Failed →
      set_property n o k v =
        Except.error "Failed to set an object property") ∧
    (∀ (n : Napi) (v : Value), n.resolve_deferred_status = Status.Failed →
      resolve_deferred n v = Except.error "Failed to resolve promise") ∧
    (∀ (n : Napi) (v : Value), n.reject_deferred_status = Status.Failed →
      reject_deferred n v = Except.error "Failed to reject promise") ∧
    (∀ (n : Napi), n.is_exception_pending_status = Status.Failed →
      catch_exception n =
        Except.error "Failed to check if an exception is pending") ∧
    (∀ (n : Napi), n.is_exception_pending_status = Status.Ok →
      n.pending_exception.isSome = true →
      n.get_and_clear_last_exception_status = Status.Failed →
      catch_exception n =
        Except.error "Failed to get and clear the last exception") ∧
    (∀ (n : Napi) (p : Panic), n.create_external_status = Status.Failed →
      external_from_panic n p =
        Except.error "Failed to create a neon::types::JsBox from a panic") ∧
    (∀ (m : String), runBoundary (Except.error m) = Outcome.aborted m) := by
  refine ⟨?_, ?_, ?_, ?_, ?_, ?_, ?_, ?_, ?_⟩
  · intro n msg h; simp [create_string, h]
  · intro n msg h1 h2
    simp [error_from_message, create_string, h1, h2, Bind.bind, Except.bind]
  · intro n o k v h1 h2
    simp [set_property, create_string, h1, h2, Bind.bind, Except.bind]
  · intro n v h; simp [resolve_deferred, h]
  · intro n v h; simp [reject_deferred, h]
  · intro n h
    simp [catch_exception, is_exception_pending, h, Bind.bind, Except.bind]
  · intro n h1 h2 h3
    simp [catch_exception, is_exception_pending, h1, h2, h3, Bind.bind,
      Except.bind, pure, Except.pure]
  · intro n p h; simp [external_from_panic, h]
  · intro m; rfl

/-- Claim C7 witness: each failing sub-operation at a concrete oracle. -/
theorem runtime_call_failure_aborts_witness :
    create_string badNapi "m" = Except.error "Failed to create a String" ∧
    error_from_message mixedNapi "m" =
      Except.error "Failed to create an Error" ∧
    set_property mixedNapi (Value.js 0) "k" (Value.js 1) =
      Except.error "Failed to set an object property" ∧
    resolve_deferred badNapi (Value.js 0) =
      Except.error "Failed to resolve promise" ∧
    reject_deferred badNapi (Value.js 0) =
      Except.error "Failed to reject promise" ∧
    catch_exception badNapi =
      Except.error "Failed to check if an exception is pending" ∧
    catch_exception mixedNapi =
      Except.error "Failed to get and clear the last exception" ∧
    external_from_panic badNapi (Panic.other 0) =
      Except.error "Failed to create a neon::types::JsBox from a panic" ∧
    runBoundary (Except.error "m") = Outcome.aborted "m" :=
  ⟨runtime_call_failure_aborts.1 badNapi "m" rfl,
   runtime_call_failure_aborts.2.1 mixedNapi "m" rfl rfl,
   runtime_call_failure_aborts.2.2.1 mixedNapi (Value.js 0) "k" (Value.js 1)
     rfl rfl,
   runtime_call_failure_aborts.2.2.2.1 badNapi (Value.js 0) rfl,
   runtime_call_failure_aborts.2.2.2.2.1 badNapi (Value.js 0) rfl,
   runtime_call_failure_aborts.2.2.2.2.2.1 badNapi rfl,
   runtime_call_failure_aborts.2.2.2.2.2.2.1 mixedNapi rfl rfl rfl,
   runtime_call_failure_aborts.2.2.2.2.2.2.2.1 badNapi (Panic.other 0) rfl,
   runtime_call_failure_aborts.2.2.2.2.2.2.2.2 "m"⟩

/-- Claim C8: non-null env, `Deferred` supplied, no pending exception and no
panic: the deferred is resolved with the value the work produced. -/
theorem success_with_deferred_resolves
    (b : FailureBoundary) (napi3 : Bool) (n : Napi) (env : Env)
    (f : Option Env → Except Panic Value) (v : Value)
    (henv : env ≠ 0) (hp : n.probeOk)
    (hexc : n.pending_exception = none) (hok : f (some env) = Except.ok v)
    (hres : n.resolve_deferred_status = Status.Ok) :
    b.catch_failure napi3 n env (some ()) f = Outcome.resolved v := by
  rw [catch_failure_live b napi3 n env (some ()) f henv]
  simp [FailureBoundary.classify, catch_exception_ok n hp, hexc, hok,
    resolve_deferred, hres, runBoundary, Bind.bind, Except.bind, pure,
    Except.pure]

/-- Claim C8 witness: the promise resolves with the produced value 42. -/
theorem success_with_deferred_resolves_witness :
    bTest.catch_failure true goodNapi 1 (some ())
        (fun _ => Except.ok (Value.js 42)) = Outcome.resolved (Value.js 42) :=
  success_with_deferred_resolves bTest true goodNapi 1
    (fun _ => Except.ok (Value.js 42)) (Value.js 42)
    (by decide) (by decide) rfl rfl rfl

/-- Claim C9: `panic_msg` returns a message exactly for the `&str` and
`String` payload downcasts, and nothing for every other payload type. -/
theorem panic_msg_string_payloads_only :
    (∀ s, panic_msg (Panic.strRef s) = some s) ∧
    (∀ s, panic_msg (Panic.stringOwned s) = some s) ∧
    (∀ t, panic_msg (Panic.other t) = none) ∧
    (∀ p, (panic_msg p).isSome = true ↔
      ((∃ s, p = Panic.strRef s) ∨ (∃ s, p = Panic.stringOwned s))) := by
  refine ⟨fun s => rfl, fun s => rfl, fun t => rfl, fun p => ?_⟩
  cases p <;> simp [panic_msg]

/-- Claim C9 witness: concrete payloads of all three kinds. -/
theorem panic_msg_string_payloads_only_witness :
    panic_msg (Panic.strRef "boom") = some "boom" ∧
    panic_msg (Panic.stringOwned "boom") = some "boom" ∧
    panic_msg (Panic.other 0) = none :=
  ⟨panic_msg_string_payloads_only.1 "boom",
   panic_msg_string_payloads_only.2.1 "boom",
   panic_msg_string_payloads_only.2.2.1 0⟩

/-- Claim C10: the `panic` error for an extractable payload carries exactly
the extracted message; for any other payload it is a constructed
"Unknown panic" error whose `cause` is an external wrapping the boxed
payload with `finalize_panic` registered, and `finalize_panic` drops the
live boxed payload. -/
theorem panic_error_structure :
    (∀ (n : Napi) (p : Panic) (s : String), n.buildersOk →
      panic_msg p = some s →
      error_from_panic n p = Except.ok (Value.error s [])) ∧
    (∀ (n : Napi) (p : Panic), n.buildersOk → panic_msg p = none →
      error_from_panic n p = Except.ok (Value.error UNKNOWN_PANIC_MESSAGE
        [("cause", Value.external p true)])) ∧
    (∀ (n : Napi) (p : Panic), n.create_external_status = Status.Ok →
      external_from_panic n p = Except.ok (Value.external p true)) ∧
    (∀ (p : Panic), finalize_panic (BoxState.live p) = BoxState.dropped) := by
  refine ⟨?_, ?_, ?_, fun p => rfl⟩
  · intro n p s hb hmsg
    rw [error_from_panic_ok n p hb]
    simp [panic_error_value, hmsg]
  · intro n p hb hmsg
    rw [error_from_panic_ok n p hb]
    simp [panic_error_value, hmsg]
  · intro n p h; simp [external_from_panic, h]

/-- Claim C10 witness: a message-bearing payload and an opaque payload. -/
theorem panic_error_structure_witness :
    error_from_panic goodNapi (Panic.stringOwned "boom") =
      Except.ok (Value.error "boom" []) ∧
    error_from_panic goodNapi (Panic.other 5) =
      Except.ok (Value.error UNKNOWN_PANIC_MESSAGE
        [("cause", Value.external (Panic.other 5) true)]) ∧
    external_from_panic goodNapi (Panic.other 5) =
      Except.ok (Value.external (Panic.other 5) true) ∧
    finalize_panic (BoxState.live (Panic.other 5)) = BoxState.dropped :=
  ⟨panic_error_structure.1 goodNapi (Panic.stringOwned "boom") "boom"
     (by decide) rfl,
   panic_error_structure.2.1 goodNapi (Panic.other 5) (by decide) rfl,
   panic_error_structure.2.2.1 goodNapi (Panic.other 5) rfl,
   panic_error_structure.2.2.2 (Panic.other 5)⟩

end NoPanic
